import Mathlib

/-!
Shallow embedding of the invoice-processing workflow engine from
`src/backend/v3/magentic_agents/invoice_workflow.py`.

The Python code drives a LangGraph state machine over a loosely typed
`InvoiceWorkflowState` dictionary.  We embed the state as a Lean structure,
each graph node as a pure state-transformer, and the two external effects
(the LLM extraction call and the Cosmos DB invoice store) as explicit
parameters: the extraction call's observable outcome is an
`ExtractionOutcome` value fed to the analysis node, and store writes are
returned as an event list (the records handed to save, in order), with a
`SaveBehavior` parameter saying whether/where a write raises.

Python-specific conventions modelled explicitly:
- dictionary values that may be `None` become `Option`;
- Python truthiness of strings / lists / numbers is modelled by dedicated
  helper functions (`optStrTruthy`, `amountFalsy`, ...);
- monetary amounts (Python floats) are modelled as rationals; the string
  rendering of an amount inside a message is `toString` of the rational,
  standing for Python string interpolation of the float;
- `datetime.strptime(s, "%Y-%m-%d")` is modelled by `parseInvoiceDate`,
  which reproduces CPython's regex for that format (4-digit year, 1-2 digit
  month and day) plus the calendar validity check of the `datetime`
  constructor; `datetime.now()` is modelled by an integer day-number
  parameter `now` (the civil day count of the current date, via
  `daysFromCivil`), which is exact for the `.days` arithmetic the code does;
- text is treated as ASCII for `lower`/`upper`/`strip`.
-/

namespace InvoiceWorkflow

/-- One entry of the extraction output array (`extracted_data` in the Python
state): a loosely typed invoice record.  A missing key is `none` / `""`. -/
structure ExtractedInvoice where
  parsing_error : Option String := none
  tax_id : String := ""
  company_name : String := ""
  vendor_name : String := ""
  invoice_date : Option String := none
  total_amount : Option ℚ := none
  items : String := ""
  invoice_number : String := ""
  currency : String := ""
  deriving Repr, DecidableEq

/-- Python truthiness of an optional string (`if d.get(k):`). -/
def optStrTruthy : Option String → Bool
  | none => false
  | some s => s ≠ ""

/-- `float(d.get("total_amount", 0))`: missing key defaults to 0. -/
def amountOf (inv : ExtractedInvoice) : ℚ := inv.total_amount.getD 0

/-- Python falsiness of the raw `total_amount` value (`not d.get("total_amount")`). -/
def amountFalsy : Option ℚ → Bool
  | none => true
  | some a => a == 0

/-- Does `p` lead the list (is it an initial segment)? -/
def charListLeads : List Char → List Char → Bool
  | [], _ => true
  | _ :: _, [] => false
  | p :: ps, c :: cs => p == c && charListLeads ps cs

/-- Substring occurrence on char lists. -/
def charListHasSub (pat : List Char) : List Char → Bool
  | [] => charListLeads pat []
  | c :: cs => charListLeads pat (c :: cs) || charListHasSub pat cs

/-- Python `pat in s` on strings. -/
def pyContains (s pat : String) : Bool := charListHasSub pat.data s.data

/-- ASCII lower-casing of one character (Python `str.lower` on ASCII text). -/
def charLower (c : Char) : Char :=
  if 'A' ≤ c ∧ c ≤ 'Z' then Char.ofNat (c.toNat + 32) else c

/-- ASCII upper-casing of one character (Python `str.upper` on ASCII text). -/
def charUpper (c : Char) : Char :=
  if 'a' ≤ c ∧ c ≤ 'z' then Char.ofNat (c.toNat - 32) else c

/-- Python `str.lower`. -/
def pyLower (s : String) : String := ⟨s.data.map charLower⟩

/-- Python `str.upper`. -/
def pyUpper (s : String) : String := ⟨s.data.map charUpper⟩

/-- Python whitespace (the ASCII characters `str.strip` removes). -/
def pyIsSpace (c : Char) : Bool :=
  c = ' ' ∨ c = '\t' ∨ c = '\n' ∨ c = '\r' ∨ c = '\x0b' ∨ c = '\x0c'

/-- Python `str.strip()`. -/
def pyStrip (s : String) : String :=
  ⟨((s.data.dropWhile pyIsSpace).reverse.dropWhile pyIsSpace).reverse⟩

/-- Splitting on the character `-` (Python `s.split("-")`, and what the
`%Y-%m-%d` regex groups reduce to). -/
def splitDash : List Char → List (List Char)
  | [] => [[]]
  | c :: cs =>
    if c = '-' then [] :: splitDash cs
    else
      match splitDash cs with
      | [] => [[c]]
      | g :: gs => (c :: g) :: gs

/-- `"Invoice #{idx+1}: "`, the per-record position tag of every violation. -/
def invoiceTag (idx : ℕ) : String := "Invoice #" ++ toString (idx + 1) ++ ": "

/-- Gregorian leap year (as `calendar.isleap` / `datetime`). -/
def leapYear (y : ℕ) : Bool := (y % 4 == 0 && y % 100 != 0) || y % 400 == 0

/-- Length of a month, as validated by the `datetime` constructor. -/
def daysInMonth (y m : ℕ) : ℕ :=
  if m = 2 then (if leapYear y then 29 else 28)
  else if m = 4 ∨ m = 6 ∨ m = 9 ∨ m = 11 then 30 else 31

/-- Are all characters ASCII digits? -/
def allDigits (s : List Char) : Bool := s.all fun c => '0' ≤ c && c ≤ '9'

/-- Numeric value of a digit list. -/
def digitsVal (s : List Char) : ℕ :=
  s.foldl (fun n c => 10 * n + (c.toNat - '0'.toNat)) 0

/-- `datetime.strptime(s, "%Y-%m-%d")`: CPython compiles this format to the
regex `\d\d\d\d` for the year, `1[0-2]|0[1-9]|[1-9]` for the month and
`3[01]|[12]\d|0[1-9]|[1-9]` for the day, requires a full match, and the
`datetime` constructor then checks `1 <= year` and day-of-month validity.
Splitting on `-` and checking digit-group lengths and ranges is equivalent. -/
def parseInvoiceDate (s : String) : Option (ℕ × ℕ × ℕ) :=
  match splitDash s.data with
  | [ys, ms, ds] =>
    if ys.length = 4 ∧ allDigits ys ∧
        (ms.length = 1 ∨ ms.length = 2) ∧ allDigits ms ∧
        (ds.length = 1 ∨ ds.length = 2) ∧ allDigits ds then
      if 1 ≤ digitsVal ys ∧ 1 ≤ digitsVal ms ∧ digitsVal ms ≤ 12 ∧
          1 ≤ digitsVal ds ∧ digitsVal ds ≤ daysInMonth (digitsVal ys) (digitsVal ms) then
        some (digitsVal ys, digitsVal ms, digitsVal ds)
      else none
    else none
  | _ => none

/-- Civil day number of a Gregorian date (days-from-civil; epoch 0000-03-01).
Only differences of two day numbers are ever used, mirroring
`(datetime.now() - invoice_date).days`. -/
def daysFromCivil (y m d : ℕ) : ℤ :=
  let y' : ℤ := if m ≤ 2 then (y : ℤ) - 1 else (y : ℤ)
  let mp : ℤ := if m ≤ 2 then (m : ℤ) + 9 else (m : ℤ) - 3
  365 * y' + Int.fdiv y' 4 - Int.fdiv y' 100 + Int.fdiv y' 400
    + (153 * mp + 2) / 5 + (d : ℤ) - 1

/-- Amount rendering inside messages (stands for Python float interpolation). -/
def amtStr (a : ℚ) : String := toString a

/-- Policy 1 of `_policy_verification_node`: meal expenses must not exceed 200.
The source condition is `"meal" in str(items).lower() or
"restaurant" in str(vendor_name).lower()`, then `total_amount > 200`. -/
def mealViolations (idx : ℕ) (inv : ExtractedInvoice) : List String :=
  if (pyContains (pyLower inv.items) "meal"
        || pyContains (pyLower inv.vendor_name) "restaurant")
      && decide (amountOf inv > 200) then
    [invoiceTag idx ++ ("Meal expense $" ++ (amtStr (amountOf inv) ++ " exceeds the $200 limit"))]
  else []

/-- Policy 2 of `_policy_verification_node`: the 30-day staleness rule.
The whole check is guarded by `if invoice_date_str:`, so a missing or empty
date is skipped entirely; a `ValueError` from `strptime` yields the
invalid-format violation. -/
def dateViolations (now : ℤ) (idx : ℕ) (inv : ExtractedInvoice) : List String :=
  match inv.invoice_date with
  | none => []
  | some ds =>
    if ds = "" then []
    else
      match parseInvoiceDate ds with
      | some (y, m, d) =>
        let daysOld := now - daysFromCivil y m d
        if 30 < daysOld then
          [invoiceTag idx ++ ("Invoice is " ++ (toString daysOld ++ " days old, exceeds 30-day policy"))]
        else []
      | none => [invoiceTag idx ++ "Invalid invoice date format"]

/-- Policy 3 of `_policy_verification_node`: required-field checks, in the
source order `tax_id, company_name, vendor_name, total_amount`. -/
def requiredFieldViolations (idx : ℕ) (inv : ExtractedInvoice) : List String :=
  (if inv.tax_id = "" then [invoiceTag idx ++ "Missing required field: tax_id"] else []) ++
  (if inv.company_name = "" then [invoiceTag idx ++ "Missing required field: company_name"] else []) ++
  (if inv.vendor_name = "" then [invoiceTag idx ++ "Missing required field: vendor_name"] else []) ++
  (if amountFalsy inv.total_amount then [invoiceTag idx ++ "Missing required field: total_amount"] else [])

/-- Violations of one record: a truthy `parsing_error` short-circuits to the
parse-failure violation, otherwise the three policies run in order. -/
def recordViolations (now : ℤ) (idx : ℕ) (inv : ExtractedInvoice) : List String :=
  if optStrTruthy inv.parsing_error then
    [invoiceTag idx ++ "Failed to parse invoice data"]
  else
    mealViolations idx inv ++ dateViolations now idx inv ++ requiredFieldViolations idx inv

/-- The violation computation of `_policy_verification_node`: every record is
validated with its `enumerate` index, violations concatenated in order. -/
def validateInvoices (now : ℤ) (invs : List ExtractedInvoice) : List String :=
  (invs.enum.map fun p => recordViolations now p.1 p.2).flatten

/-- A chat message in the workflow state's `messages` list. -/
structure Message where
  role : String
  content : String
  deriving Repr, DecidableEq

/-- An uploaded file as stored in the state's `images` list:
a dict with `data` (raw bytes) and `content_type`. -/
structure AttachedFile where
  content_type : String
  data : List ℕ
  deriving Repr, DecidableEq

/-- The `InvoiceWorkflowState` TypedDict.  `reimbursement_form` is only ever
`None` in the source, so its payload is abstracted to `Unit`. -/
structure WorkflowState where
  messages : List Message
  user_id : String
  images : Option (List AttachedFile)
  extracted_data : Option (List ExtractedInvoice)
  policy_violations : Option (List String)
  user_confirmation : Option Bool
  workflow_stage : String
  reimbursement_form : Option Unit
  manager_notification_sent : Option Bool
  deriving Repr, DecidableEq

/-- Shorthand for the assistant-role messages the nodes append. -/
def assistantMsg (content : String) : Message := ⟨"assistant", content⟩

/-- Observable outcome of the extraction call inside
`_invoice_analysis_node` (the agent invocation plus JSON handling):
* `raised err` — the call (or anything else in the node body before the
  state updates) raised an exception with text `err`;
* `badJson err` — the response was not valid JSON (`json.JSONDecodeError`);
* `parsed success data errorField messageField` — the response parsed; the
  fields are the truthiness of `"success"`, the `"extracted_data"` array
  (already coerced to a list as the source does), and the optional
  `"error"` and `"message"` fields. -/
inductive ExtractionOutcome where
  | raised (err : String)
  | badJson (err : String)
  | parsed (success : Bool) (data : List ExtractedInvoice)
      (errorField : Option String) (messageField : Option String)
  deriving Repr, DecidableEq

/-- `_invoice_analysis_node`.  On a parsed response the extraction result is
stored verbatim (no reconciliation-length validation); on `success=false` or
bad JSON a single synthetic `parsing_error` record is stored and the node
still completes; both of those paths clear `images`.  The `raised` branch
models the node's outer `except`, which runs before any of the state
updates, so it replaces `extracted_data` but leaves `images` untouched. -/
def invoiceAnalysisNode (out : ExtractionOutcome) (s : WorkflowState) : WorkflowState :=
  match out with
  | .raised err =>
    { s with extracted_data := some [{ parsing_error := some err }],
             workflow_stage := "analysis_failed",
             messages := s.messages ++ [assistantMsg ("Failed to analyze invoice: " ++ err)] }
  | .badJson err =>
    { s with extracted_data := some [{ parsing_error := some ("Invalid JSON response: " ++ err) }],
             workflow_stage := "analysis_completed",
             messages := s.messages ++
               [assistantMsg "Failed to parse invoice data - invalid response format"],
             images := none }
  | .parsed success data errorField messageField =>
    if success then
      { s with extracted_data := some data,
               workflow_stage := "analysis_completed",
               messages := s.messages ++
                 [assistantMsg (messageField.getD
                   ("Invoice analysis completed - extracted " ++ toString data.length ++ " invoice(s)"))],
               images := none }
    else
      { s with extracted_data := some [{ parsing_error := some (errorField.getD "Unknown error") }],
               workflow_stage := "analysis_completed",
               messages := s.messages ++ [assistantMsg (messageField.getD "Invoice analysis failed")],
               images := none }

/-- `_policy_verification_node`.  The `none` branch models the `TypeError`
from `enumerate(None)`, caught by the node's handler. -/
def policyVerificationNode (now : ℤ) (s : WorkflowState) : WorkflowState :=
  match s.extracted_data with
  | none =>
    { s with policy_violations := some ["System error: 'NoneType' object is not iterable"],
             workflow_stage := "verification_failed",
             messages := s.messages ++
               [assistantMsg "Failed to verify policies: 'NoneType' object is not iterable"] }
  | some invs =>
    let allViolations := validateInvoices now invs
    { s with policy_violations := some allViolations,
             workflow_stage := "verification_completed",
             messages := s.messages ++
               [assistantMsg (if !allViolations.isEmpty then
                  "Policy violations found in " ++ toString invs.length ++
                    " invoice(s) - please fix these issues and resubmit"
                else
                  "Policy verification passed for all " ++ toString invs.length ++
                    " invoice(s) - all company policies are satisfied")] }

/-- The numbered violation listing built by `_wait_for_fixes_node`. -/
def violationDetails (vs : List String) : String :=
  "Policy violations found:\n\n" ++
    String.join (vs.enum.map fun p => toString (p.1 + 1) ++ ". " ++ p.2 ++ "\n") ++
    "\nPlease provide corrections for these issues."

/-- `_wait_for_fixes_node`: the suspend point of the fix loop. -/
def waitForFixesNode (s : WorkflowState) : WorkflowState :=
  match s.policy_violations with
  | none =>
    { s with workflow_stage := "wait_fixes_failed",
             messages := s.messages ++
               [assistantMsg "Failed to process violations: 'NoneType' object is not iterable"] }
  | some vs =>
    { s with workflow_stage := "awaiting_fixes",
             messages := s.messages ++ [assistantMsg (violationDetails vs)] }

/-- Total amount over non-error records, as summed by the confirmation and
notification nodes. -/
def totalNonError (invs : List ExtractedInvoice) : ℚ :=
  (invs.filter fun inv => !optStrTruthy inv.parsing_error).foldl
    (fun acc inv => acc + amountOf inv) 0

/-- Two-digit zero padding. -/
def pad2 (n : ℕ) : String := if n < 10 then "0" ++ toString n else toString n

/-- Round to the nearest integer, ties to even (Python float formatting). -/
def roundHalfEvenInt (q : ℚ) : ℤ :=
  let f : ℤ := Rat.floor q
  let r : ℚ := q - f
  if r < 1 / 2 then f else if 1 / 2 < r then f + 1 else if f % 2 = 0 then f else f + 1

/-- Python `f"{q:.2f}"` on the modelled rational amount. -/
def fmt2f (q : ℚ) : String :=
  let c : ℤ := roundHalfEvenInt (q * 100)
  if c < 0 then "-" ++ toString ((-c) / 100) ++ "." ++ pad2 ((-c) % 100).toNat
  else toString (c / 100) ++ "." ++ pad2 (c % 100).toNat

/-- The summary emitted on entering `awaiting_confirmation`. -/
def confirmationMessage (n : ℕ) (total : ℚ) : String :=
  "📋 Reimbursement request prepared:\n- Total invoices: " ++ toString n ++
    "\n- Total amount: $" ++ fmt2f total ++
    "\n\nPlease review and reply CONFIRM to proceed or CANCEL to abort."

/-- `_user_confirmation_node`: returns the state unchanged when
`user_confirmation` is already `True`, otherwise emits the summary and
suspends in `awaiting_confirmation`.  The `none` branch models the
`TypeError` from `len(None)`, caught by the node's handler. -/
def userConfirmationNode (s : WorkflowState) : WorkflowState :=
  if s.user_confirmation = some true then s
  else
    match s.extracted_data with
    | none =>
      { s with workflow_stage := "confirmation_failed",
               messages := s.messages ++
                 [assistantMsg "Failed to generate reimbursement form: object of type 'NoneType' has no len()"] }
    | some invs =>
      { s with workflow_stage := "awaiting_confirmation",
               messages := s.messages ++
                 [assistantMsg (confirmationMessage invs.length (totalNonError invs))] }

/-- Behaviour of the invoice store during `_manager_notification_node`:
either every `_save_reimbursement_form` call succeeds, or the `k`-th
attempted save raises with text `err`. -/
inductive SaveBehavior where
  | allOk : SaveBehavior
  | failAt : ℕ → String → SaveBehavior
  deriving Repr, DecidableEq

/-- The records the notification node attempts to save: exactly the
non-error entries, in order. -/
def nonErrorRecords (invs : List ExtractedInvoice) : List ExtractedInvoice :=
  invs.filter fun inv => !optStrTruthy inv.parsing_error

/-- The success result of `_manager_notification_node`: every save succeeded,
`manager_notification_sent` is set and the stage becomes `completed`. -/
def managerNotificationOk (s : WorkflowState) (invs : List ExtractedInvoice) :
    WorkflowState × List ExtractedInvoice :=
  ({ s with manager_notification_sent := some true,
            workflow_stage := "completed",
            messages := s.messages ++
              [assistantMsg ("✅ Reimbursement request with " ++ toString invs.length ++
                " invoice(s) ($" ++ fmt2f (totalNonError invs) ++
                ") submitted successfully for manager approval")] },
   nonErrorRecords invs)

/-- `_manager_notification_node`.  Returns the updated state together with
the list of records handed to `_save_reimbursement_form`, in call order.
On a save failure the loop stops, the node's handler sets the stage to
`notification_failed` and appends the error message; already-performed
saves remain done.  The `none` branch models the `TypeError` from
`len(None)`, caught by the same handler before any save. -/
def managerNotificationNode (beh : SaveBehavior) (s : WorkflowState) :
    WorkflowState × List ExtractedInvoice :=
  match s.extracted_data with
  | none =>
    ({ s with workflow_stage := "notification_failed",
              messages := s.messages ++
                [assistantMsg "Failed to send manager notification: object of type 'NoneType' has no len()"] },
     [])
  | some invs =>
    match beh with
    | .allOk => managerNotificationOk s invs
    | .failAt k err =>
      if k < (nonErrorRecords invs).length then
        ({ s with workflow_stage := "notification_failed",
                  messages := s.messages ++
                    [assistantMsg ("Failed to send manager notification: " ++ err)] },
         (nonErrorRecords invs).take k)
      else managerNotificationOk s invs

/-- `_should_ask_for_fixes`: Python truthiness of `policy_violations`. -/
def shouldAskForFixes (s : WorkflowState) : Bool :=
  match s.policy_violations with
  | none => false
  | some vs => !vs.isEmpty

/-- One `ainvoke` pass of the compiled graph, starting at the entry node
`invoice_analysis`:  analysis → verification → (violations ? wait_for_fixes
: user_confirmation), then the run interrupts (both suspend nodes are in
`interrupt_after`), so `manager_notification` is never reached in a pass. -/
def runGraphPass (now : ℤ) (out : ExtractionOutcome) (s : WorkflowState) : WorkflowState :=
  let s2 := policyVerificationNode now (invoiceAnalysisNode out s)
  if shouldAskForFixes s2 then waitForFixesNode s2 else userConfirmationNode s2

/-- The affirmative tokens of `handle_user_response`. -/
def affirmTokens : List String := ["CONFIRM", "YES", "APPROVE", "OK"]

/-- The negative tokens of `handle_user_response`. -/
def negativeTokens : List String := ["CANCEL", "NO", "REJECT"]

/-- `handle_user_response`.  Besides the updated state it returns the list
of records handed to the store (non-empty only on the confirm path).
`now`/`out` feed the graph pass run when resuming from `awaiting_fixes`. -/
def handleUserResponse (now : ℤ) (out : ExtractionOutcome) (beh : SaveBehavior)
    (s : WorkflowState) (userResponse : String) : WorkflowState × List ExtractedInvoice :=
  if s.workflow_stage = "awaiting_confirmation" then
    if pyUpper (pyStrip userResponse) ∈ affirmTokens then
      managerNotificationNode beh
        { s with user_confirmation := some true, workflow_stage := "confirmed" }
    else if pyUpper (pyStrip userResponse) ∈ negativeTokens then
      ({ s with user_confirmation := some false,
                workflow_stage := "cancelled",
                reimbursement_form := none,
                extracted_data := none,
                policy_violations := none,
                messages := s.messages ++
                  [assistantMsg "Reimbursement request cancelled. Please submit a new invoice if needed."] },
       [])
    else
      ({ s with messages := s.messages ++
          [assistantMsg "Please reply CONFIRM to proceed or CANCEL to abort."] },
       [])
  else if s.workflow_stage = "awaiting_fixes" then
    (runGraphPass now out { s with messages := s.messages ++ [⟨"user", userResponse⟩] }, [])
  else (s, [])

/-! ### Helper lemmas -/

/-- Character lists disagree at some position common to both. -/
def clDisagree : List Char → List Char → Bool
  | a :: as, b :: bs => a != b || clDisagree as bs
  | _, _ => false

theorem append_ne_of_clDisagree :
    ∀ (p q : List Char), clDisagree p q = true → ∀ (x y : List Char), p ++ x ≠ q ++ y := by
  intro p
  induction p with
  | nil => intro q h; cases q <;> simp [clDisagree] at h
  | cons a as ih =>
    intro q h x y
    cases q with
    | nil => simp [clDisagree] at h
    | cons b bs =>
      rw [clDisagree, Bool.or_eq_true, bne_iff_ne] at h
      intro e
      rw [List.cons_append, List.cons_append, List.cons.injEq] at e
      rcases h with h | h
      · exact h e.1
      · exact ih bs h x y e.2

theorem data_of_append (a b : String) : (a ++ b).data = a.data ++ b.data := rfl

theorem str_ne_of_data_ne {u v : String} (h : u.data ≠ v.data) : u ≠ v :=
  fun e => h (congrArg String.data e)

/-- Strings sharing a tag differ whenever their suffix literals disagree. -/
theorem tag_append_ne (t : String) {u v : String} (h : u.data ≠ v.data) :
    t ++ u ≠ t ++ v := by
  intro e
  apply h
  have e2 : t.data ++ u.data = t.data ++ v.data := by
    have := congrArg String.data e
    simpa [data_of_append] using this
  exact List.append_cancel_left e2

/-- The generic shape: tag ++ (literal ++ tail) vs tag ++ (literal ++ tail),
where the two literals disagree at a common position. -/
theorem tag_lit_ne (t l1 l2 x y : String) (h : clDisagree l1.data l2.data = true) :
    t ++ (l1 ++ x) ≠ t ++ (l2 ++ y) := by
  apply tag_append_ne
  rw [data_of_append, data_of_append]
  exact append_ne_of_clDisagree _ _ h _ _

/-- Variant with a bare literal on the right. -/
theorem tag_lit_ne_right (t l1 l2 x : String) (h : clDisagree l1.data l2.data = true) :
    t ++ (l1 ++ x) ≠ t ++ l2 := by
  apply tag_append_ne
  rw [data_of_append]
  have := append_ne_of_clDisagree l1.data l2.data h x.data []
  simpa using this

/-- Variant with a bare literal on the left. -/
theorem tag_lit_ne_left (t l1 l2 y : String) (h : clDisagree l1.data l2.data = true) :
    t ++ l1 ≠ t ++ (l2 ++ y) := by
  apply tag_append_ne
  rw [data_of_append]
  have := append_ne_of_clDisagree l1.data l2.data h [] y.data
  simpa using this

/-- Variant with bare literals on both sides. -/
theorem tag_lit_ne_both (t l1 l2 : String) (h : clDisagree l1.data l2.data = true) :
    t ++ l1 ≠ t ++ l2 := by
  apply tag_append_ne
  have := append_ne_of_clDisagree l1.data l2.data h [] []
  simpa using this

theorem mealViolations_cases (idx : ℕ) (inv : ExtractedInvoice) :
    mealViolations idx inv = [] ∨
    mealViolations idx inv =
      [invoiceTag idx ++ ("Meal expense $" ++ (amtStr (amountOf inv) ++ " exceeds the $200 limit"))] := by
  unfold mealViolations; split
  · right; rfl
  · left; rfl

theorem dateViolations_cases (now : ℤ) (idx : ℕ) (inv : ExtractedInvoice) :
    dateViolations now idx inv = [] ∨
    (∃ n : String, dateViolations now idx inv = [invoiceTag idx ++ ("Invoice is " ++ n)]) ∨
    dateViolations now idx inv = [invoiceTag idx ++ "Invalid invoice date format"] := by
  unfold dateViolations
  rcases inv.invoice_date with _ | ds
  · left; rfl
  · by_cases h0 : ds = ""
    · left; simp [h0]
    · rcases hpd : parseInvoiceDate ds with _ | ⟨y, m, d⟩
      · right; right; simp [h0, hpd]
      · simp only [h0, hpd, if_false]
        split
        · right; left
          exact ⟨_, rfl⟩
        · left; rfl

theorem mem_requiredFieldViolations (idx : ℕ) (inv : ExtractedInvoice) {msg : String}
    (h : msg ∈ requiredFieldViolations idx inv) :
    msg = invoiceTag idx ++ "Missing required field: tax_id" ∨
    msg = invoiceTag idx ++ "Missing required field: company_name" ∨
    msg = invoiceTag idx ++ "Missing required field: vendor_name" ∨
    msg = invoiceTag idx ++ "Missing required field: total_amount" := by
  unfold requiredFieldViolations at h
  rcases List.mem_append.1 h with h1 | h1
  · rcases List.mem_append.1 h1 with h2 | h2
    · rcases List.mem_append.1 h2 with h3 | h3
      · split at h3 <;> simp at h3; tauto
      · split at h3 <;> simp at h3; tauto
    · split at h2 <;> simp at h2; tauto
  · split at h1 <;> simp at h1; tauto

theorem meal_not_mem_dateViolations (now : ℤ) (idx : ℕ) (inv : ExtractedInvoice) (x : String) :
    invoiceTag idx ++ ("Meal expense $" ++ x) ∉ dateViolations now idx inv := by
  rcases dateViolations_cases now idx inv with h | ⟨n, h⟩ | h <;> rw [h] <;> simp
  · exact tag_lit_ne _ "Meal expense $" "Invoice is " _ _ (by decide)
  · exact tag_lit_ne_right _ "Meal expense $" "Invalid invoice date format" _ (by decide)

theorem meal_not_mem_requiredFieldViolations (idx : ℕ) (inv : ExtractedInvoice) (x : String) :
    invoiceTag idx ++ ("Meal expense $" ++ x) ∉ requiredFieldViolations idx inv := by
  intro h
  rcases mem_requiredFieldViolations idx inv h with h | h | h | h
  · exact tag_lit_ne_right _ "Meal expense $" "Missing required field: tax_id" _ (by decide) h
  · exact tag_lit_ne_right _ "Meal expense $" "Missing required field: company_name" _ (by decide) h
  · exact tag_lit_ne_right _ "Meal expense $" "Missing required field: vendor_name" _ (by decide) h
  · exact tag_lit_ne_right _ "Meal expense $" "Missing required field: total_amount" _ (by decide) h

theorem stale_not_mem_mealViolations (idx : ℕ) (inv : ExtractedInvoice) (x : String) :
    invoiceTag idx ++ ("Invoice is " ++ x) ∉ mealViolations idx inv := by
  rcases mealViolations_cases idx inv with h | h <;> rw [h] <;> simp
  exact tag_lit_ne _ "Invoice is " "Meal expense $" _ _ (by decide)

theorem stale_not_mem_requiredFieldViolations (idx : ℕ) (inv : ExtractedInvoice) (x : String) :
    invoiceTag idx ++ ("Invoice is " ++ x) ∉ requiredFieldViolations idx inv := by
  intro h
  rcases mem_requiredFieldViolations idx inv h with h | h | h | h
  · exact tag_lit_ne_right _ "Invoice is " "Missing required field: tax_id" _ (by decide) h
  · exact tag_lit_ne_right _ "Invoice is " "Missing required field: company_name" _ (by decide) h
  · exact tag_lit_ne_right _ "Invoice is " "Missing required field: vendor_name" _ (by decide) h
  · exact tag_lit_ne_right _ "Invoice is " "Missing required field: total_amount" _ (by decide) h

theorem invalid_not_mem_mealViolations (idx : ℕ) (inv : ExtractedInvoice) :
    invoiceTag idx ++ "Invalid invoice date format" ∉ mealViolations idx inv := by
  rcases mealViolations_cases idx inv with h | h <;> rw [h] <;> simp
  exact tag_lit_ne_left _ "Invalid invoice date format" "Meal expense $" _ (by decide)

theorem invalid_not_mem_requiredFieldViolations (idx : ℕ) (inv : ExtractedInvoice) :
    invoiceTag idx ++ "Invalid invoice date format" ∉ requiredFieldViolations idx inv := by
  intro h
  rcases mem_requiredFieldViolations idx inv h with h | h | h | h
  · exact tag_lit_ne_both _ "Invalid invoice date format" "Missing required field: tax_id" (by decide) h
  · exact tag_lit_ne_both _ "Invalid invoice date format" "Missing required field: company_name" (by decide) h
  · exact tag_lit_ne_both _ "Invalid invoice date format" "Missing required field: vendor_name" (by decide) h
  · exact tag_lit_ne_both _ "Invalid invoice date format" "Missing required field: total_amount" (by decide) h

/-- The `extracted_data` written by the analysis node on each outcome. -/
def analysisResultData : ExtractionOutcome → List ExtractedInvoice
  | .raised err => [{ parsing_error := some err }]
  | .badJson err => [{ parsing_error := some ("Invalid JSON response: " ++ err) }]
  | .parsed success data errorField _ =>
    if success then data else [{ parsing_error := some (errorField.getD "Unknown error") }]

theorem analysisNode_extracted (out : ExtractionOutcome) (s : WorkflowState) :
    (invoiceAnalysisNode out s).extracted_data = some (analysisResultData out) := by
  cases out with
  | raised err => rfl
  | badJson err => rfl
  | parsed success data e m => cases success <;> rfl

theorem analysisNode_user_confirmation (out : ExtractionOutcome) (s : WorkflowState) :
    (invoiceAnalysisNode out s).user_confirmation = s.user_confirmation := by
  cases out with
  | raised err => rfl
  | badJson err => rfl
  | parsed success data e m => cases success <;> rfl

theorem analysisNode_notif (out : ExtractionOutcome) (s : WorkflowState) :
    (invoiceAnalysisNode out s).manager_notification_sent = s.manager_notification_sent := by
  cases out with
  | raised err => rfl
  | badJson err => rfl
  | parsed success data e m => cases success <;> rfl

theorem verificationNode_extracted (now : ℤ) (s : WorkflowState) :
    (policyVerificationNode now s).extracted_data = s.extracted_data := by
  unfold policyVerificationNode
  rcases s.extracted_data with _ | invs <;> rfl

theorem verificationNode_user_confirmation (now : ℤ) (s : WorkflowState) :
    (policyVerificationNode now s).user_confirmation = s.user_confirmation := by
  unfold policyVerificationNode
  rcases s.extracted_data with _ | invs <;> rfl

theorem verificationNode_notif (now : ℤ) (s : WorkflowState) :
    (policyVerificationNode now s).manager_notification_sent = s.manager_notification_sent := by
  unfold policyVerificationNode
  rcases s.extracted_data with _ | invs <;> rfl

theorem verificationNode_violations (now : ℤ) (s : WorkflowState)
    (l : List ExtractedInvoice) (h : s.extracted_data = some l) :
    (policyVerificationNode now s).policy_violations = some (validateInvoices now l) := by
  unfold policyVerificationNode
  rw [h]

theorem waitForFixesNode_stage (s : WorkflowState) (vs : List String)
    (h : s.policy_violations = some vs) :
    (waitForFixesNode s).workflow_stage = "awaiting_fixes" := by
  unfold waitForFixesNode
  rw [h]

theorem waitForFixesNode_notif (s : WorkflowState) :
    (waitForFixesNode s).manager_notification_sent = s.manager_notification_sent := by
  unfold waitForFixesNode
  rcases s.policy_violations with _ | vs <;> rfl

theorem userConfirmationNode_stage (s : WorkflowState) (l : List ExtractedInvoice)
    (hc : s.user_confirmation ≠ some true) (h : s.extracted_data = some l) :
    (userConfirmationNode s).workflow_stage = "awaiting_confirmation" := by
  unfold userConfirmationNode
  rw [if_neg hc, h]

theorem userConfirmationNode_notif (s : WorkflowState) :
    (userConfirmationNode s).manager_notification_sent = s.manager_notification_sent := by
  unfold userConfirmationNode
  split
  · rfl
  · rcases s.extracted_data with _ | invs <;> rfl

/-! ### Concrete fixtures for witnesses and counterexamples -/

/-- A clean invoice record. -/
def demoInvoice : ExtractedInvoice :=
  { tax_id := "123", company_name := "Contoso", vendor_name := "KFC",
    invoice_date := some "2023-02-01", total_amount := some 150, items := "supplies" }

/-- A second clean invoice record. -/
def demoInvoice2 : ExtractedInvoice :=
  { tax_id := "456", company_name := "Fabrikam", vendor_name := "Paper Planet",
    invoice_date := some "2023-02-02", total_amount := some 80, items := "chairs" }

/-- An active (non-cancelled) session holding two accepted invoices. -/
def baseState : WorkflowState :=
  { messages := [⟨"user", "please reimburse"⟩], user_id := "user-1", images := none,
    extracted_data := some [demoInvoice, demoInvoice2], policy_violations := some [],
    user_confirmation := none, workflow_stage := "awaiting_fixes",
    reimbursement_form := none, manager_notification_sent := none }

/-! ### Claim theorems -/

/-- Claim C1, counterexample: on an active (non-cancelled) session holding two
accepted invoices, a successful extraction that returns a one-element array is
stored verbatim by the analysis node — the invoice list shrinks from 2 to 1,
no anomaly is detected and no fallback to appending happens, so a previously
accepted invoice is lost. -/
theorem c1_counterexample :
    baseState.workflow_stage ≠ "cancelled" ∧
    (baseState.extracted_data.getD []).length = 2 ∧
    (invoiceAnalysisNode (ExtractionOutcome.parsed true [demoInvoice] none none)
        baseState).extracted_data = some [demoInvoice] ∧
    ((invoiceAnalysisNode (ExtractionOutcome.parsed true [demoInvoice] none none)
        baseState).extracted_data.getD []).length <
      (baseState.extracted_data.getD []).length :=
  ⟨by decide, rfl, rfl, by decide⟩

/-- Claim C1 as amended: the analysis node performs no reconciliation-length
validation at all — whatever array a successful extraction returns becomes the
session's invoice list verbatim, so the list can shrink and no append fallback
exists. -/
theorem c1_amended_analysis_stores_verbatim (s : WorkflowState)
    (data : List ExtractedInvoice) (errF msgF : Option String) :
    (invoiceAnalysisNode (ExtractionOutcome.parsed true data errF msgF) s).extracted_data
      = some data :=
  rfl

theorem validate_single (now : ℤ) (inv : ExtractedInvoice) :
    validateInvoices now [inv] = recordViolations now 0 inv := by
  simp [validateInvoices]

/-- Claim C2: an extraction-call failure — a raised service exception or a
response that is not valid JSON — never escapes the analysis node: the node
still returns a state whose invoice list is a single synthetic record with a
populated parsing-error field, and the subsequent verification pass reports
the failure as the parse-failure violation. -/
theorem c2_extraction_failures_absorbed (now : ℤ) (s : WorkflowState) (err : String)
    (herr : err ≠ "") :
    ((invoiceAnalysisNode (ExtractionOutcome.raised err) s).extracted_data =
        some [{ parsing_error := some err }] ∧
      invoiceTag 0 ++ "Failed to parse invoice data" ∈
        ((policyVerificationNode now
            (invoiceAnalysisNode (ExtractionOutcome.raised err) s)).policy_violations.getD [])) ∧
    ((invoiceAnalysisNode (ExtractionOutcome.badJson err) s).extracted_data =
        some [{ parsing_error := some ("Invalid JSON response: " ++ err) }] ∧
      invoiceTag 0 ++ "Failed to parse invoice data" ∈
        ((policyVerificationNode now
            (invoiceAnalysisNode (ExtractionOutcome.badJson err) s)).policy_violations.getD [])) := by
  have hbad : ("Invalid JSON response: " ++ err) ≠ "" := by
    intro e
    have := congrArg String.data e
    rw [data_of_append] at this
    simp at this
  constructor
  · refine ⟨rfl, ?_⟩
    rw [verificationNode_violations now _ [{ parsing_error := some err }] rfl]
    rw [Option.getD_some, validate_single]
    simp [recordViolations, optStrTruthy, herr]
  · refine ⟨rfl, ?_⟩
    rw [verificationNode_violations now _
      [{ parsing_error := some ("Invalid JSON response: " ++ err) }] rfl]
    rw [Option.getD_some, validate_single]
    simp [recordViolations, optStrTruthy, hbad]

/-- Witness for C2 at a concrete failing call. -/
theorem c2_witness :
    ((invoiceAnalysisNode (ExtractionOutcome.raised "boom") baseState).extracted_data =
        some [{ parsing_error := some "boom" }] ∧
      invoiceTag 0 ++ "Failed to parse invoice data" ∈
        ((policyVerificationNode 0
            (invoiceAnalysisNode (ExtractionOutcome.raised "boom") baseState)).policy_violations.getD [])) ∧
    ((invoiceAnalysisNode (ExtractionOutcome.badJson "boom") baseState).extracted_data =
        some [{ parsing_error := some ("Invalid JSON response: " ++ "boom") }] ∧
      invoiceTag 0 ++ "Failed to parse invoice data" ∈
        ((policyVerificationNode 0
            (invoiceAnalysisNode (ExtractionOutcome.badJson "boom") baseState)).policy_violations.getD [])) :=
  c2_extraction_failures_absorbed 0 baseState "boom" (by decide)

/-- The session state used for the C8 counterexample: two pending attachment
blobs await extraction. -/
def c8State : WorkflowState := { baseState with images := some [⟨"application/pdf", [37, 80]⟩] }

/-- Claim C8, counterexample: when the analysis node's body raises (outer
exception handler), the pending attachments are NOT cleared — the state keeps
the raw blobs after the pass. -/
theorem c8_counterexample :
    (invoiceAnalysisNode (ExtractionOutcome.raised "boom") c8State).images
        = some [⟨"application/pdf", [37, 80]⟩] ∧
    (invoiceAnalysisNode (ExtractionOutcome.raised "boom") c8State).images ≠ none :=
  ⟨rfl, by decide⟩

/-- Claim C8 as amended: the analysis node clears the pending attachments on
every path that reaches its state-update block (successful extraction,
`success=false`, invalid JSON), but the outer exception path runs before that
block and leaves the attachments untouched. -/
theorem c8_amended_images_cleared_except_raise (s : WorkflowState) (out : ExtractionOutcome) :
    (invoiceAnalysisNode out s).images =
      (match out with
       | ExtractionOutcome.raised _ => s.images
       | _ => none) := by
  cases out with
  | raised e => rfl
  | badJson e => rfl
  | parsed success d e m => cases success <;> rfl

/-- Claim C10: a user response delivered to a session whose stage is neither
`awaiting_confirmation` nor `awaiting_fixes` is a complete no-op —
`handle_user_response` returns the state unchanged and performs no store
write. -/
theorem c10_other_stage_no_op (now : ℤ) (out : ExtractionOutcome) (beh : SaveBehavior)
    (s : WorkflowState) (r : String)
    (h1 : s.workflow_stage ≠ "awaiting_confirmation")
    (h2 : s.workflow_stage ≠ "awaiting_fixes") :
    handleUserResponse now out beh s r = (s, []) := by
  unfold handleUserResponse
  rw [if_neg h1, if_neg h2]

/-- Witness for C10 at a concrete completed session. -/
theorem c10_witness :
    handleUserResponse 0 (ExtractionOutcome.parsed true [] none none) SaveBehavior.allOk
        { baseState with workflow_stage := "completed" } "hello" =
      ({ baseState with workflow_stage := "completed" }, []) :=
  c10_other_stage_no_op 0 (ExtractionOutcome.parsed true [] none none) SaveBehavior.allOk
    { baseState with workflow_stage := "completed" } "hello" (by decide) (by decide)

theorem managerNotificationNode_ok (s : WorkflowState) (l : List ExtractedInvoice)
    (h : s.extracted_data = some l) :
    managerNotificationNode SaveBehavior.allOk s = managerNotificationOk s l := by
  unfold managerNotificationNode
  rw [h]

theorem managerNotificationNode_fail (s : WorkflowState) (l : List ExtractedInvoice)
    (k : ℕ) (err : String) (h : s.extracted_data = some l)
    (hk : k < (nonErrorRecords l).length) :
    managerNotificationNode (SaveBehavior.failAt k err) s =
      ({ s with workflow_stage := "notification_failed",
                messages := s.messages ++
                  [assistantMsg ("Failed to send manager notification: " ++ err)] },
       (nonErrorRecords l).take k) := by
  unfold managerNotificationNode
  rw [h]
  exact if_pos hk

theorem validateInvoices_eq_nil_iff (now : ℤ) (l : List ExtractedInvoice) :
    validateInvoices now l = [] ↔ ∀ p ∈ l.enum, recordViolations now p.1 p.2 = [] := by
  unfold validateInvoices
  rw [List.flatten_eq_nil_iff]
  constructor
  · intro h p hp
    exact h _ (List.mem_map_of_mem _ hp)
  · intro h x hx
    rcases List.mem_map.1 hx with ⟨p, hp, hpx⟩
    rw [← hpx]
    exact h p hp

/-- Claim C3: after a verification pass (one graph pass, here on a session
whose confirmation flag is not already set), the run suspends in
`awaiting_fixes` exactly when the computed violation list is non-empty and in
`awaiting_confirmation` exactly when it is empty; equivalently, the batch
reaches confirmation exactly when every individual record produced no
violation — there is no per-invoice partial pass. -/
theorem c3_verification_branching (now : ℤ) (out : ExtractionOutcome) (s : WorkflowState)
    (h : s.user_confirmation ≠ some true) :
    ((runGraphPass now out s).workflow_stage = "awaiting_fixes" ↔
      validateInvoices now (analysisResultData out) ≠ []) ∧
    ((runGraphPass now out s).workflow_stage = "awaiting_confirmation" ↔
      validateInvoices now (analysisResultData out) = []) ∧
    ((runGraphPass now out s).workflow_stage = "awaiting_confirmation" ↔
      ∀ p ∈ (analysisResultData out).enum, recordViolations now p.1 p.2 = []) := by
  have ha : (invoiceAnalysisNode out s).extracted_data = some (analysisResultData out) :=
    analysisNode_extracted out s
  have hv : (policyVerificationNode now (invoiceAnalysisNode out s)).policy_violations =
      some (validateInvoices now (analysisResultData out)) :=
    verificationNode_violations now _ _ ha
  have he2 : (policyVerificationNode now (invoiceAnalysisNode out s)).extracted_data =
      some (analysisResultData out) := by
    rw [verificationNode_extracted]; exact ha
  have huc : (policyVerificationNode now (invoiceAnalysisNode out s)).user_confirmation ≠
      some true := by
    rw [verificationNode_user_confirmation, analysisNode_user_confirmation]; exact h
  have hrun : runGraphPass now out s =
      if shouldAskForFixes (policyVerificationNode now (invoiceAnalysisNode out s)) then
        waitForFixesNode (policyVerificationNode now (invoiceAnalysisNode out s))
      else userConfirmationNode (policyVerificationNode now (invoiceAnalysisNode out s)) := rfl
  have hs : shouldAskForFixes (policyVerificationNode now (invoiceAnalysisNode out s)) =
      !(validateInvoices now (analysisResultData out)).isEmpty := by
    unfold shouldAskForFixes; rw [hv]
  by_cases hnil : validateInvoices now (analysisResultData out) = []
  · have hcond : shouldAskForFixes (policyVerificationNode now (invoiceAnalysisNode out s)) =
        false := by rw [hs, hnil]; rfl
    rw [hrun, hcond]
    simp only [Bool.false_eq_true, if_false]
    rw [userConfirmationNode_stage _ _ huc he2]
    exact ⟨⟨fun hq => absurd hq (by decide), fun hq => absurd hnil hq⟩,
           ⟨fun _ => hnil, fun _ => rfl⟩,
           ⟨fun _ => (validateInvoices_eq_nil_iff now _).1 hnil, fun _ => rfl⟩⟩
  · have hcond : shouldAskForFixes (policyVerificationNode now (invoiceAnalysisNode out s)) =
        true := by
      rw [hs]
      simp [List.isEmpty_iff, hnil]
    rw [hrun, hcond]
    simp only [if_true]
    rw [waitForFixesNode_stage _ _ hv]
    exact ⟨⟨fun _ => hnil, fun _ => rfl⟩,
           ⟨fun hq => absurd hq (by decide), fun hq => absurd hq hnil⟩,
           ⟨fun hq => absurd hq (by decide),
            fun hq => absurd ((validateInvoices_eq_nil_iff now _).2 hq) hnil⟩⟩

/-- Witness for C3 at a concrete pass: extraction returns one invoice that is
too old for the 30-day policy, so the pass suspends in `awaiting_fixes`. -/
theorem c3_witness :
    ((runGraphPass (daysFromCivil 2023 4 10)
        (ExtractionOutcome.parsed true [demoInvoice] none none) baseState).workflow_stage =
        "awaiting_fixes" ↔
      validateInvoices (daysFromCivil 2023 4 10)
        (analysisResultData (ExtractionOutcome.parsed true [demoInvoice] none none)) ≠ []) ∧
    ((runGraphPass (daysFromCivil 2023 4 10)
        (ExtractionOutcome.parsed true [demoInvoice] none none) baseState).workflow_stage =
        "awaiting_confirmation" ↔
      validateInvoices (daysFromCivil 2023 4 10)
        (analysisResultData (ExtractionOutcome.parsed true [demoInvoice] none none)) = []) ∧
    ((runGraphPass (daysFromCivil 2023 4 10)
        (ExtractionOutcome.parsed true [demoInvoice] none none) baseState).workflow_stage =
        "awaiting_confirmation" ↔
      ∀ p ∈ (analysisResultData
          (ExtractionOutcome.parsed true [demoInvoice] none none)).enum,
        recordViolations (daysFromCivil 2023 4 10) p.1 p.2 = []) :=
  c3_verification_branching (daysFromCivil 2023 4 10)
    (ExtractionOutcome.parsed true [demoInvoice] none none) baseState (by decide)

/-- Claim C4: resuming a session suspended in `awaiting_confirmation` (with
all writes succeeding): an affirmative token (trimmed, upper-cased member of
CONFIRM/YES/APPROVE/OK) drives the session to the terminal success stage (the
spec's `notified`, the source's `"completed"` string); a negative token
(CANCEL/NO/REJECT) drives it to `cancelled`; any other reply changes nothing
except appending the clarifying re-prompt — the invoice and violation data
are untouched, no store write happens and the text is never treated as new
invoice data. -/
theorem c4_confirmation_resume (now : ℤ) (out : ExtractionOutcome)
    (s : WorkflowState) (l : List ExtractedInvoice) (r : String)
    (hstage : s.workflow_stage = "awaiting_confirmation")
    (hdata : s.extracted_data = some l) :
    (pyUpper (pyStrip r) ∈ affirmTokens →
      (handleUserResponse now out SaveBehavior.allOk s r).1.workflow_stage = "completed") ∧
    (pyUpper (pyStrip r) ∈ negativeTokens →
      (handleUserResponse now out SaveBehavior.allOk s r).1.workflow_stage = "cancelled") ∧
    (pyUpper (pyStrip r) ∉ affirmTokens → pyUpper (pyStrip r) ∉ negativeTokens →
      handleUserResponse now out SaveBehavior.allOk s r =
        ({ s with messages := s.messages ++
            [assistantMsg "Please reply CONFIRM to proceed or CANCEL to abort."] }, [])) := by
  unfold handleUserResponse
  rw [if_pos hstage]
  refine ⟨?_, ?_, ?_⟩
  · intro haff
    have hmn : managerNotificationNode SaveBehavior.allOk
        { s with user_confirmation := some true, workflow_stage := "confirmed" } =
        managerNotificationOk
          { s with user_confirmation := some true, workflow_stage := "confirmed" } l :=
      managerNotificationNode_ok _ l hdata
    rw [if_pos haff, hmn]
    rfl
  · intro hneg
    have hnaff : pyUpper (pyStrip r) ∉ affirmTokens := by
      simp only [negativeTokens, List.mem_cons, List.not_mem_nil, or_false] at hneg
      rcases hneg with h1 | h1 | h1 <;> rw [h1] <;> decide
    rw [if_neg hnaff, if_pos hneg]
  · intro hna hnn
    rw [if_neg hna, if_neg hnn]

/-- Witness for C4, exercising all three reply classes on one suspended
session. -/
theorem c4_witness :
    ((handleUserResponse 0 (ExtractionOutcome.parsed true [] none none) SaveBehavior.allOk
        { baseState with workflow_stage := "awaiting_confirmation" } " yes ").1.workflow_stage
      = "completed") ∧
    ((handleUserResponse 0 (ExtractionOutcome.parsed true [] none none) SaveBehavior.allOk
        { baseState with workflow_stage := "awaiting_confirmation" } "reject").1.workflow_stage
      = "cancelled") ∧
    (handleUserResponse 0 (ExtractionOutcome.parsed true [] none none) SaveBehavior.allOk
        { baseState with workflow_stage := "awaiting_confirmation" } "why?" =
      ({ { baseState with workflow_stage := "awaiting_confirmation" } with
          messages := { baseState with workflow_stage := "awaiting_confirmation" }.messages ++
            [assistantMsg "Please reply CONFIRM to proceed or CANCEL to abort."] }, [])) :=
  ⟨(c4_confirmation_resume 0 (ExtractionOutcome.parsed true [] none none)
      { baseState with workflow_stage := "awaiting_confirmation" }
      [demoInvoice, demoInvoice2] " yes " rfl rfl).1 (by decide),
   (c4_confirmation_resume 0 (ExtractionOutcome.parsed true [] none none)
      { baseState with workflow_stage := "awaiting_confirmation" }
      [demoInvoice, demoInvoice2] "reject" rfl rfl).2.1 (by decide),
   (c4_confirmation_resume 0 (ExtractionOutcome.parsed true [] none none)
      { baseState with workflow_stage := "awaiting_confirmation" }
      [demoInvoice, demoInvoice2] "why?" rfl rfl).2.2 (by decide) (by decide)⟩

/-- Claim C5, counterexample: a store failure while handling a CONFIRM leaves
the session in stage `notification_failed`, not `awaiting_confirmation` — the
confirm action cannot be retried (a later reply to a `notification_failed`
session is a no-op). -/
theorem c5_counterexample :
    (handleUserResponse 0 (ExtractionOutcome.parsed true [] none none)
        (SaveBehavior.failAt 0 "db down")
        { baseState with workflow_stage := "awaiting_confirmation" } "CONFIRM").1.workflow_stage
      = "notification_failed" ∧
    (handleUserResponse 0 (ExtractionOutcome.parsed true [] none none)
        (SaveBehavior.failAt 0 "db down")
        { baseState with workflow_stage := "awaiting_confirmation" } "CONFIRM").1.workflow_stage
      ≠ "awaiting_confirmation" := by
  constructor
  · decide
  · decide

/-- Claim C5 as amended: when a save raises during the confirm transition the
failure is surfaced as an assistant error message and the violation list is
untouched (so it is distinct from a workflow violation), no notification flag
is set and the already-saved records stay saved — but the stage becomes
`notification_failed` rather than remaining `awaiting_confirmation`, and the
confirmation flag stays `true`. -/
theorem c5_amended_persistence_failure (now : ℤ) (out : ExtractionOutcome)
    (s : WorkflowState) (l : List ExtractedInvoice) (r err : String) (k : ℕ)
    (hstage : s.workflow_stage = "awaiting_confirmation")
    (hdata : s.extracted_data = some l)
    (haff : pyUpper (pyStrip r) ∈ affirmTokens)
    (hk : k < (nonErrorRecords l).length) :
    (handleUserResponse now out (SaveBehavior.failAt k err) s r).1.workflow_stage
        = "notification_failed" ∧
    (handleUserResponse now out (SaveBehavior.failAt k err) s r).1.policy_violations
        = s.policy_violations ∧
    (handleUserResponse now out (SaveBehavior.failAt k err) s r).1.manager_notification_sent
        = s.manager_notification_sent ∧
    (handleUserResponse now out (SaveBehavior.failAt k err) s r).1.user_confirmation
        = some true ∧
    (handleUserResponse now out (SaveBehavior.failAt k err) s r).1.messages
        = s.messages ++ [assistantMsg ("Failed to send manager notification: " ++ err)] ∧
    (handleUserResponse now out (SaveBehavior.failAt k err) s r).2
        = (nonErrorRecords l).take k := by
  have hmn : managerNotificationNode (SaveBehavior.failAt k err)
      { s with user_confirmation := some true, workflow_stage := "confirmed" } =
      ({ { s with user_confirmation := some true, workflow_stage := "confirmed" } with
          workflow_stage := "notification_failed",
          messages := s.messages ++
            [assistantMsg ("Failed to send manager notification: " ++ err)] },
       (nonErrorRecords l).take k) :=
    managerNotificationNode_fail _ l k err hdata hk
  unfold handleUserResponse
  rw [if_pos hstage, if_pos haff, hmn]
  exact ⟨rfl, rfl, rfl, rfl, rfl, rfl⟩

/-- Witness for C5's amended theorem at a concrete failing save. -/
theorem c5_amended_witness :
    (handleUserResponse 0 (ExtractionOutcome.parsed true [] none none)
        (SaveBehavior.failAt 0 "db down")
        { baseState with workflow_stage := "awaiting_confirmation" } "CONFIRM").1.workflow_stage
        = "notification_failed" ∧
    (handleUserResponse 0 (ExtractionOutcome.parsed true [] none none)
        (SaveBehavior.failAt 0 "db down")
        { baseState with workflow_stage := "awaiting_confirmation" } "CONFIRM").1.policy_violations
        = ({ baseState with workflow_stage := "awaiting_confirmation" } : WorkflowState).policy_violations ∧
    (handleUserResponse 0 (ExtractionOutcome.parsed true [] none none)
        (SaveBehavior.failAt 0 "db down")
        { baseState with workflow_stage := "awaiting_confirmation" } "CONFIRM").1.manager_notification_sent
        = ({ baseState with workflow_stage := "awaiting_confirmation" } : WorkflowState).manager_notification_sent ∧
    (handleUserResponse 0 (ExtractionOutcome.parsed true [] none none)
        (SaveBehavior.failAt 0 "db down")
        { baseState with workflow_stage := "awaiting_confirmation" } "CONFIRM").1.user_confirmation
        = some true ∧
    (handleUserResponse 0 (ExtractionOutcome.parsed true [] none none)
        (SaveBehavior.failAt 0 "db down")
        { baseState with workflow_stage := "awaiting_confirmation" } "CONFIRM").1.messages
        = ({ baseState with workflow_stage := "awaiting_confirmation" } : WorkflowState).messages ++
            [assistantMsg ("Failed to send manager notification: " ++ "db down")] ∧
    (handleUserResponse 0 (ExtractionOutcome.parsed true [] none none)
        (SaveBehavior.failAt 0 "db down")
        { baseState with workflow_stage := "awaiting_confirmation" } "CONFIRM").2
        = (nonErrorRecords [demoInvoice, demoInvoice2]).take 0 :=
  c5_amended_persistence_failure 0 (ExtractionOutcome.parsed true [] none none)
    { baseState with workflow_stage := "awaiting_confirmation" }
    [demoInvoice, demoInvoice2] "CONFIRM" "db down" 0 rfl rfl (by decide) (by decide)

/-- Claim C9: entering the terminal success stage hands exactly the records
without a parsing error to the store, once each and in order (an error record
is never saved), sets the notification flag, and no other node of the state
machine ever touches that flag. -/
theorem c9_notified_saves (s : WorkflowState) (l : List ExtractedInvoice)
    (h : s.extracted_data = some l) :
    (managerNotificationNode SaveBehavior.allOk s).2 =
        l.filter (fun inv => !optStrTruthy inv.parsing_error) ∧
    (managerNotificationNode SaveBehavior.allOk s).1.manager_notification_sent = some true ∧
    (managerNotificationNode SaveBehavior.allOk s).1.workflow_stage = "completed" ∧
    (∀ (now : ℤ) (out : ExtractionOutcome) (t : WorkflowState),
      (invoiceAnalysisNode out t).manager_notification_sent = t.manager_notification_sent ∧
      (policyVerificationNode now t).manager_notification_sent = t.manager_notification_sent ∧
      (waitForFixesNode t).manager_notification_sent = t.manager_notification_sent ∧
      (userConfirmationNode t).manager_notification_sent = t.manager_notification_sent) := by
  rw [managerNotificationNode_ok s l h]
  exact ⟨rfl, rfl, rfl, fun now out t =>
    ⟨analysisNode_notif out t, verificationNode_notif now t,
     waitForFixesNode_notif t, userConfirmationNode_notif t⟩⟩

/-- Witness for C9 on a session with one clean and one error record: only the
clean one is saved. -/
theorem c9_witness :
    (managerNotificationNode SaveBehavior.allOk
        { baseState with extracted_data := some [demoInvoice, { parsing_error := some "bad" }] }).2 =
        [demoInvoice, { parsing_error := some "bad" }].filter
          (fun inv => !optStrTruthy inv.parsing_error) ∧
    (managerNotificationNode SaveBehavior.allOk
        { baseState with extracted_data := some [demoInvoice, { parsing_error := some "bad" }] }).1.manager_notification_sent = some true ∧
    (managerNotificationNode SaveBehavior.allOk
        { baseState with extracted_data := some [demoInvoice, { parsing_error := some "bad" }] }).1.workflow_stage = "completed" ∧
    (∀ (now : ℤ) (out : ExtractionOutcome) (t : WorkflowState),
      (invoiceAnalysisNode out t).manager_notification_sent = t.manager_notification_sent ∧
      (policyVerificationNode now t).manager_notification_sent = t.manager_notification_sent ∧
      (waitForFixesNode t).manager_notification_sent = t.manager_notification_sent ∧
      (userConfirmationNode t).manager_notification_sent = t.manager_notification_sent) :=
  c9_notified_saves
    { baseState with extracted_data := some [demoInvoice, { parsing_error := some "bad" }] }
    [demoInvoice, { parsing_error := some "bad" }] rfl

/-- The meal-cap trigger as the spec words it: `items` OR `vendorName`
case-insensitively contains "meal" OR "restaurant" (a refinement-comparison
definition written from the spec, to be diffed against `mealViolations`). -/
def specMealCond (inv : ExtractedInvoice) : Bool :=
  (pyContains (pyLower inv.items) "meal" || pyContains (pyLower inv.items) "restaurant" ||
    pyContains (pyLower inv.vendor_name) "meal" ||
    pyContains (pyLower inv.vendor_name) "restaurant")
  && decide (amountOf inv > 200)

/-- A record satisfying the spec's meal-cap trigger (vendor name contains
"meal") that the code's check does not catch. -/
def c6Invoice : ExtractedInvoice :=
  { tax_id := "77", company_name := "Contoso", vendor_name := "Meal Box Co",
    invoice_date := none, total_amount := some 300, items := "office supplies" }

/-- Claim C6, counterexample: a record whose vendor name contains "meal"
and whose amount exceeds 200 satisfies the spec's trigger, yet the validator
emits no violation at all for it — the source only checks "meal" inside
`items` and "restaurant" inside `vendor_name`. -/
theorem c6_counterexample :
    specMealCond c6Invoice = true ∧ recordViolations 0 0 c6Invoice = [] := by
  constructor
  · decide
  · decide

/-- Claim C6 as amended: for a non-error record the meal-cap violation is
emitted iff `items` (lower-cased) contains "meal" OR `vendor_name`
(lower-cased) contains "restaurant", and the amount exceeds 200. -/
theorem c6_amended_meal_cap (now : ℤ) (idx : ℕ) (inv : ExtractedInvoice)
    (hne : optStrTruthy inv.parsing_error = false) :
    (invoiceTag idx ++ ("Meal expense $" ++ (amtStr (amountOf inv) ++ " exceeds the $200 limit"))
        ∈ recordViolations now idx inv) ↔
      ((pyContains (pyLower inv.items) "meal" = true ∨
        pyContains (pyLower inv.vendor_name) "restaurant" = true) ∧ amountOf inv > 200) := by
  unfold recordViolations
  rw [hne]
  simp only [Bool.false_eq_true, if_false]
  rw [List.mem_append, List.mem_append]
  constructor
  · rintro ((hm | hd) | hr)
    · unfold mealViolations at hm
      by_cases hcond : ((pyContains (pyLower inv.items) "meal"
          || pyContains (pyLower inv.vendor_name) "restaurant")
          && decide (amountOf inv > 200)) = true
      · rw [Bool.and_eq_true, Bool.or_eq_true, decide_eq_true_eq] at hcond
        exact ⟨hcond.1, hcond.2⟩
      · rw [if_neg hcond] at hm
        exact absurd hm (List.not_mem_nil _)
    · exact absurd hd (meal_not_mem_dateViolations now idx inv _)
    · exact absurd hr (meal_not_mem_requiredFieldViolations idx inv _)
  · rintro ⟨hor, hamt⟩
    have hcond : ((pyContains (pyLower inv.items) "meal"
        || pyContains (pyLower inv.vendor_name) "restaurant")
        && decide (amountOf inv > 200)) = true := by
      rw [Bool.and_eq_true, Bool.or_eq_true, decide_eq_true_eq]
      exact ⟨hor, hamt⟩
    left; left
    unfold mealViolations
    rw [if_pos hcond]
    exact List.mem_singleton.2 rfl

/-- A non-error record for the C6 witness whose vendor is a restaurant. -/
def c6RestaurantInvoice : ExtractedInvoice :=
  { tax_id := "5", company_name := "Contoso", vendor_name := "Great Restaurant",
    invoice_date := none, total_amount := some 250, items := "dinner" }

/-- Witness for C6's amended theorem at a concrete restaurant record. -/
theorem c6_amended_witness :
    (invoiceTag 0 ++ ("Meal expense $" ++ (amtStr (amountOf c6RestaurantInvoice) ++
        " exceeds the $200 limit")) ∈ recordViolations 0 0 c6RestaurantInvoice) ↔
      ((pyContains (pyLower c6RestaurantInvoice.items) "meal" = true ∨
        pyContains (pyLower c6RestaurantInvoice.vendor_name) "restaurant" = true) ∧
       amountOf c6RestaurantInvoice > 200) :=
  c6_amended_meal_cap 0 0 c6RestaurantInvoice rfl

theorem recordViolations_clean (now : ℤ) (idx : ℕ) (inv : ExtractedInvoice)
    (hne : optStrTruthy inv.parsing_error = false) :
    recordViolations now idx inv =
      mealViolations idx inv ++ dateViolations now idx inv ++ requiredFieldViolations idx inv := by
  unfold recordViolations
  rw [hne]
  simp

theorem dateViolations_falsy (now : ℤ) (idx : ℕ) (inv : ExtractedInvoice)
    (h : inv.invoice_date = none ∨ inv.invoice_date = some "") :
    dateViolations now idx inv = [] := by
  unfold dateViolations
  rcases h with h | h <;> rw [h]
  simp

theorem dateViolations_parsed (now : ℤ) (idx : ℕ) (inv : ExtractedInvoice)
    (ds : String) (y m d : ℕ) (hds : inv.invoice_date = some ds) (h0 : ds ≠ "")
    (hp : parseInvoiceDate ds = some (y, m, d)) :
    dateViolations now idx inv =
      if 30 < now - daysFromCivil y m d then
        [invoiceTag idx ++ ("Invoice is " ++ (toString (now - daysFromCivil y m d) ++
          " days old, exceeds 30-day policy"))]
      else [] := by
  unfold dateViolations
  rw [hds]
  dsimp only
  rw [if_neg h0, hp]

theorem dateViolations_unparsed (now : ℤ) (idx : ℕ) (inv : ExtractedInvoice)
    (ds : String) (hds : inv.invoice_date = some ds) (h0 : ds ≠ "")
    (hp : parseInvoiceDate ds = none) :
    dateViolations now idx inv = [invoiceTag idx ++ "Invalid invoice date format"] := by
  unfold dateViolations
  rw [hds]
  dsimp only
  rw [if_neg h0, hp]

/-- A record with an empty invoice date and no other rule triggered. -/
def c7Invoice : ExtractedInvoice :=
  { tax_id := "9", company_name := "Acme", vendor_name := "Depot",
    invoice_date := some "", total_amount := some 50, items := "paper" }

/-- Claim C7, counterexample: for a record whose invoice date is the empty
string (which certainly does not parse as a valid date), the validator emits
nothing at all — in particular no "Invalid invoice date format" — because the
source skips the whole date check when the date field is falsy. -/
theorem c7_counterexample :
    (invoiceTag 0 ++ "Invalid invoice date format") ∉ recordViolations 0 0 c7Invoice ∧
    recordViolations 0 0 c7Invoice = [] := by
  constructor
  · decide
  · decide

/-- Claim C7 as amended: for a non-error record, when the invoice date is a
non-empty string: if it parses, the staleness violation is emitted exactly
when `daysOld = now - invoiceDate` exceeds 30 and no invalid-format violation
appears; if it does not parse, the invalid-format violation is emitted and no
staleness violation appears.  When the date is missing or empty the date check
is skipped entirely: the record's violations are exactly the meal and
required-field ones. -/
theorem c7_amended_staleness (now : ℤ) (idx : ℕ) (inv : ExtractedInvoice)
    (hne : optStrTruthy inv.parsing_error = false) :
    (∀ ds, inv.invoice_date = some ds → ds ≠ "" →
      (∀ y m d, parseInvoiceDate ds = some (y, m, d) →
        ((invoiceTag idx ++ ("Invoice is " ++ (toString (now - daysFromCivil y m d) ++
            " days old, exceeds 30-day policy"))) ∈ recordViolations now idx inv ↔
          30 < now - daysFromCivil y m d) ∧
        (invoiceTag idx ++ "Invalid invoice date format") ∉ recordViolations now idx inv) ∧
      (parseInvoiceDate ds = none →
        (invoiceTag idx ++ "Invalid invoice date format") ∈ recordViolations now idx inv ∧
        ∀ n : String, (invoiceTag idx ++ ("Invoice is " ++ n)) ∉ recordViolations now idx inv)) ∧
    ((inv.invoice_date = none ∨ inv.invoice_date = some "") →
      recordViolations now idx inv = mealViolations idx inv ++ requiredFieldViolations idx inv) := by
  constructor
  · intro ds hds h0
    constructor
    · intro y m d hp
      have hrec := recordViolations_clean now idx inv hne
      rw [dateViolations_parsed now idx inv ds y m d hds h0 hp] at hrec
      rw [hrec]
      constructor
      · rw [List.mem_append, List.mem_append]
        constructor
        · rintro ((hm | hd) | hr)
          · exact absurd hm (stale_not_mem_mealViolations idx inv _)
          · by_cases hold : 30 < now - daysFromCivil y m d
            · exact hold
            · rw [if_neg hold] at hd
              exact absurd hd (List.not_mem_nil _)
          · exact absurd hr (stale_not_mem_requiredFieldViolations idx inv _)
        · intro hold
          left; right
          rw [if_pos hold]
          exact List.mem_singleton.2 rfl
      · rw [List.mem_append, List.mem_append]
        rintro ((hm | hd) | hr)
        · exact absurd hm (invalid_not_mem_mealViolations idx inv)
        · by_cases hold : 30 < now - daysFromCivil y m d
          · rw [if_pos hold] at hd
            rw [List.mem_singleton] at hd
            exact tag_lit_ne_left _ "Invalid invoice date format" "Invoice is " _ (by decide) hd
          · rw [if_neg hold] at hd
            exact absurd hd (List.not_mem_nil _)
        · exact absurd hr (invalid_not_mem_requiredFieldViolations idx inv)
    · intro hp
      have hrec := recordViolations_clean now idx inv hne
      rw [dateViolations_unparsed now idx inv ds hds h0 hp] at hrec
      rw [hrec]
      constructor
      · rw [List.mem_append, List.mem_append]
        left; right
        exact List.mem_singleton.2 rfl
      · intro n
        rw [List.mem_append, List.mem_append]
        rintro ((hm | hd) | hr)
        · exact absurd hm (stale_not_mem_mealViolations idx inv _)
        · rw [List.mem_singleton] at hd
          exact tag_lit_ne_right _ "Invoice is " "Invalid invoice date format" _ (by decide) hd
        · exact absurd hr (stale_not_mem_requiredFieldViolations idx inv _)
  · intro hfalsy
    rw [recordViolations_clean now idx inv hne, dateViolations_falsy now idx inv hfalsy]
    rw [List.append_nil]

/-- A record whose date is two months before the modelled "today". -/
def c7StaleInvoice : ExtractedInvoice :=
  { tax_id := "3", company_name := "Acme", vendor_name := "Depot",
    invoice_date := some "2020-01-01", total_amount := some 50, items := "paper" }

/-- Witness for C7's amended theorem at a concrete stale record. -/
theorem c7_amended_witness :
    (∀ ds, c7StaleInvoice.invoice_date = some ds → ds ≠ "" →
      (∀ y m d, parseInvoiceDate ds = some (y, m, d) →
        ((invoiceTag 0 ++ ("Invoice is " ++ (toString (daysFromCivil 2020 3 1 - daysFromCivil y m d) ++
            " days old, exceeds 30-day policy"))) ∈
              recordViolations (daysFromCivil 2020 3 1) 0 c7StaleInvoice ↔
          30 < daysFromCivil 2020 3 1 - daysFromCivil y m d) ∧
        (invoiceTag 0 ++ "Invalid invoice date format") ∉
          recordViolations (daysFromCivil 2020 3 1) 0 c7StaleInvoice) ∧
      (parseInvoiceDate ds = none →
        (invoiceTag 0 ++ "Invalid invoice date format") ∈
          recordViolations (daysFromCivil 2020 3 1) 0 c7StaleInvoice ∧
        ∀ n : String, (invoiceTag 0 ++ ("Invoice is " ++ n)) ∉
          recordViolations (daysFromCivil 2020 3 1) 0 c7StaleInvoice)) ∧
    ((c7StaleInvoice.invoice_date = none ∨ c7StaleInvoice.invoice_date = some "") →
      recordViolations (daysFromCivil 2020 3 1) 0 c7StaleInvoice =
        mealViolations 0 c7StaleInvoice ++ requiredFieldViolations 0 c7StaleInvoice) :=
  c7_amended_staleness (daysFromCivil 2020 3 1) 0 c7StaleInvoice rfl

end InvoiceWorkflow
